import Mathlib

/-!
Shallow embedding of the request-validation and response-assembly pipeline of
the `icanhazqrcode` worker (`src/index.ts`), together with theorems settling
the specification claims about it.

Modelling conventions:
* JavaScript strings are modelled as Lean `String`; all inputs exercised by
  the claims are ASCII, where JS UTF-16 code units, Lean characters and UTF-8
  bytes agree (the one place bytes matter, the entity-tag hash, carries an
  explicit ASCII hypothesis).
* JS numbers returned by `Number.parseInt(s, 10)` are modelled as
  `Option Int`, `none` standing for `NaN`.  `parseInt` always yields an
  integer (or `NaN`), and every out-of-range magnitude is far outside the
  bounds `[1, 40]` / `[0, 20]` checked by the code, so double rounding can
  never change a verdict.
* Fallible external calls (the `qrcode-generator` codec, `request.json()`)
  are modelled as explicit sum types / `Option`, `none` standing for a thrown
  exception.
* `Response` objects are modelled by the `Resp` structure recording status,
  the headers the code sets, and the body; JSON bodies are kept as structured
  `Json` values rather than serialized text (the source serializes with
  `JSON.stringify`, a transport detail none of the claims depend on).
-/

/-- JSON values, as far as this worker constructs them. -/
inductive Json where
  | str (s : String)
  | arr (xs : List Json)
  | obj (fields : List (String × Json))

/-- A response body: either a JSON document or plain text/markup bytes. -/
inductive Body where
  | jsonBody (v : Json)
  | textBody (s : String)

/-- The headers and status the worker attaches to a `Response`. -/
structure Resp where
  status : Nat
  contentType : String
  cacheControl : String
  body : Body
  etag : Option String
  contentLength : Option Nat
  xContentTypeOptions : Option String

/-- `json(value, status)` helper (src/index.ts:661): JSON content type and a
`cache-control: no-store` directive on every JSON response.  The source gives
`status` the default 200; callers here always pass it explicitly. -/
def json (value : Json) (status : Nat) : Resp :=
  { status := status
    contentType := "application/json; charset=utf-8"
    cacheControl := "no-store"
    body := Body.jsonBody value
    etag := none
    contentLength := none
    xContentTypeOptions := none }

/-- `badRequest(message)` (src/index.ts:657). -/
def badRequest (message : String) : Resp :=
  json (Json.obj [("error", Json.str message)]) 400

/-- `healthResponse()` (src/index.ts:58). -/
def healthResponse : Resp :=
  json (Json.obj
    [ ("service", Json.str "icanhazqrcode")
    , ("endpoints", Json.arr
        [ Json.str "GET / (landing page with QR form + optional ad slot)"
        , Json.str "GET /robots.txt"
        , Json.str "GET /sitemap.xml"
        , Json.str "GET /llms.txt"
        , Json.str "GET /qr?data=<text>&scale=8&border=4&ecc=M"
        , Json.str "POST /qr (text/plain or application/json \x7bdata, scale, border, ecc\x7d)"
        ]) ]) 200

/-! ### JavaScript string primitives used by the option normalizer -/

/-- The whitespace characters recognised by `String.prototype.trim` and by
`parseInt`'s leading-whitespace skip, restricted to the ASCII range plus
NBSP (the claims only exercise ASCII input). -/
def isJsSpace (c : Char) : Bool :=
  c = ' ' || c = '\t' || c = '\n' || c = '\r' || c = '\x0b' || c = '\x0c' || c = '\xa0'

/-- `s.trim()`. -/
def jsTrim (s : String) : String :=
  (((s.toList.dropWhile isJsSpace).reverse.dropWhile isJsSpace).reverse).asString

/-- ASCII decimal digit test. -/
def isDigitB (c : Char) : Bool :=
  '0' ≤ c && c ≤ '9'

/-- The longest leading run of decimal digits. -/
def leadDigits (cs : List Char) : List Char :=
  cs.takeWhile isDigitB

/-- Value of a digit string. -/
def digitsToNat (cs : List Char) : Nat :=
  cs.foldl (fun a c => a * 10 + (c.toNat - 48)) 0

/-- `Number.parseInt(s, 10)`: skip leading whitespace, read an optional sign
and then the longest run of decimal digits, ignoring everything after it;
`NaN` (here `none`) when no digit is found. -/
def jsParseInt10 (s : String) : Option Int :=
  match s.toList.dropWhile isJsSpace with
  | '-' :: rest =>
      let ds := leadDigits rest
      if ds.isEmpty then none else some (-(digitsToNat ds : Int))
  | '+' :: rest =>
      let ds := leadDigits rest
      if ds.isEmpty then none else some (digitsToNat ds : Int)
  | rest =>
      let ds := leadDigits rest
      if ds.isEmpty then none else some (digitsToNat ds : Int)

/-- `s.toUpperCase()`; Lean's `Char.toUpper` agrees with JS on ASCII, the
only characters the ecc field ever compares against. -/
def jsToUpper (s : String) : String :=
  (s.toList.map Char.toUpper).asString

/-! ### Option Normalizer (src/index.ts:621-655) -/

/-- The three raw option strings handed to `parseOptions` (each `null` or a
string, exactly as in the source). -/
structure RawOptions where
  scale : Option String
  border : Option String
  ecc : Option String

/-- The canonical validated options. -/
structure QrOptions where
  scale : Int
  border : Int
  ecc : String
deriving DecidableEq, Repr

deriving instance DecidableEq for Except

/-- `parseIntOrDefault(input, fallback)` (src/index.ts:649): `null` or blank
input gives the fallback, otherwise `Number.parseInt(input, 10)` (which may
be `NaN`, i.e. `none`). -/
def parseIntOrDefault (input : Option String) (fallback : Int) : Option Int :=
  match input with
  | none => some fallback
  | some s => if jsTrim s = "" then some fallback else jsParseInt10 s

def scaleErrorMsg : String := "scale must be an integer between 1 and 40"
def borderErrorMsg : String := "border must be an integer between 0 and 20"
def eccErrorMsg : String := "ecc must be one of: L, M, Q, H"

/-- `ALLOWED_ERROR_CORRECTION` (src/index.ts:14). -/
def allowedEcc : List String := ["L", "M", "Q", "H"]

/-- `parseOptions(input)` (src/index.ts:621).  `Number.isInteger(x)` is false
exactly on `NaN` here (parseInt yields integers), so the source's
`!Number.isInteger(scale) || scale <= 0 || scale > MAX_SCALE` check becomes a
match on the `Option` plus the range test; fields are checked in the source's
order scale, border, errorCorrection, surfacing the first failure. -/
def parseOptions (input : RawOptions) : Except String QrOptions :=
  let scale := parseIntOrDefault input.scale 8
  let border := parseIntOrDefault input.border 4
  let eccRaw := jsToUpper (input.ecc.getD "M")
  match scale with
  | none => Except.error scaleErrorMsg
  | some s =>
    if s ≤ 0 || 40 < s then Except.error scaleErrorMsg
    else
      match border with
      | none => Except.error borderErrorMsg
      | some b =>
        if b < 0 || 20 < b then Except.error borderErrorMsg
        else if !(allowedEcc.contains eccRaw) then Except.error eccErrorMsg
        else Except.ok ⟨s, b, eccRaw⟩

/-! ### Ad Configuration Sanitizer and landing-page ad markup
(src/index.ts:72-78, 478-510) -/

/-- Boolean prefix test on character lists. -/
def isPrefixB : List Char → List Char → Bool
  | [], _ => true
  | _ :: _, [] => false
  | a :: as, b :: bs => a = b && isPrefixB as bs

/-- Boolean infix (substring) test on character lists. -/
def hasInfixB (pat : List Char) : List Char → Bool
  | [] => isPrefixB pat []
  | c :: cs => isPrefixB pat (c :: cs) || hasInfixB pat cs

/-- `s.includes(pat)`. -/
def strIncludes (s pat : String) : Bool :=
  hasInfixB pat.toList s.toList

/-- The regular expression `/^ca-pub-\d\x7b10,20\x7d$/` of `safeAdClient`. -/
def adClientPatternB (v : String) : Bool :=
  isPrefixB "ca-pub-".toList v.toList &&
    (let rest := v.toList.drop 7
     rest.all isDigitB && decide (10 ≤ rest.length) && decide (rest.length ≤ 20))

/-- The regular expression `/^\d\x7b5,20\x7d$/` of `safeAdSlot`. -/
def adSlotPatternB (v : String) : Bool :=
  v.toList.all isDigitB && decide (5 ≤ v.toList.length) && decide (v.toList.length ≤ 20)

/-- `safeAdClient(value)` (src/index.ts:478): `undefined` and the falsy empty
string give `null`; otherwise the value passes only if it matches the
`ca-pub-` + 10-20 digits pattern. -/
def safeAdClient (value : Option String) : Option String :=
  match value with
  | none => none
  | some v => if v = "" then none else if adClientPatternB v then some v else none

/-- `safeAdSlot(value)` (src/index.ts:483). -/
def safeAdSlot (value : Option String) : Option String :=
  match value with
  | none => none
  | some v => if v = "" then none else if adSlotPatternB v then some v else none

/-- `adsenseScriptMarkup(adClient)` (src/index.ts:488): the third-party
AdSense loader script tag. -/
def adsenseScriptMarkup (adClient : String) : String :=
  "<script async src=\"https://pagead2.googlesyndication.com/pagead/js/adsbygoogle.js?client="
    ++ adClient ++ "\" crossorigin=\"anonymous\"></script>"

/-- `adsenseMetaMarkup(adClient)` (src/index.ts:492). -/
def adsenseMetaMarkup (adClient : String) : String :=
  "<meta name=\"google-adsense-account\" content=\"" ++ adClient ++ "\">"

/-- `adUnitMarkup(adClient, adSlot)` (src/index.ts:496). -/
def adUnitMarkup (adClient adSlot : String) : String :=
  "<ins class=\"adsbygoogle\"\n     style=\"display:block\"\n     data-ad-client=\""
    ++ adClient ++ "\"\n     data-ad-slot=\"" ++ adSlot
    ++ "\"\n     data-ad-format=\"auto\"\n     data-full-width-responsive=\"true\"></ins>\n  "
    ++ "<script>(adsbygoogle=window.adsbygoogle||[]).push(\x7b\x7d);</script>"

/-- `fallbackAdMarkup()` (src/index.ts:506). -/
def fallbackAdMarkup : String :=
  "<div class=\"ad-fallback\">\n    Ads are not configured yet. Replace this with "
    ++ "your sponsor link, donation URL, or merch CTA until ad inventory is live.\n  </div>"

/-- The three environment-dependent fragments `landingPage` interpolates into
its HTML template: `adMeta` and `adScript` in the head, `adMarkup` in the
"Support This Project" aside.  Everything else in the template is fixed text
independent of the ad configuration. -/
structure LandingAdFragments where
  adMarkup : String
  adScript : String
  adMeta : String
deriving DecidableEq

/-- The ad-configuration logic of `landingPage(url, env)` (src/index.ts:72-78):
sanitizes `env.ADSENSE_CLIENT` / `env.ADSENSE_SLOT` and picks the fragments
placed into the page. -/
def landingPage (adsenseClient adsenseSlot : Option String) : LandingAdFragments :=
  let adClient := safeAdClient adsenseClient
  let adSlot := safeAdSlot adsenseSlot
  let adMarkup :=
    match adClient, adSlot with
    | some c, some s => adUnitMarkup c s
    | _, _ => fallbackAdMarkup
  let adScript := match adClient with | some c => adsenseScriptMarkup c | none => ""
  let adMeta := match adClient with | some c => adsenseMetaMarkup c | none => ""
  ⟨adMarkup, adScript, adMeta⟩

/-! ### Content fingerprint (src/index.ts:671-680) -/

/-- One step of the loop in `simpleHash`: `hash ^= code; hash = Math.imul(hash,
16777619)`.  The running value is kept reduced mod 2^32; `^` and `Math.imul`
are exact on 32-bit values, and the final `>>> 0` is the same reduction. -/
def fnvStep (hash code : Nat) : Nat :=
  ((hash ^^^ code) * 16777619) % 4294967296

/-- The numeric value `simpleHash` computes before rendering: the JS loop over
`value.charCodeAt(i)` starting from 2166136261. -/
def simpleHashNum (value : String) : Nat :=
  value.toList.foldl (fun h c => fnvStep h c.toNat) 2166136261

/-- One hex digit of `Number.prototype.toString(16)`: `0`-`9` then the
lowercase letters `a`-`f`. -/
def hexDigit (n : Nat) : Char :=
  if n < 10 then Char.ofNat (48 + n) else Char.ofNat (87 + n)

/-- Digit loop of `toString(16)`, structurally recursive on a fuel argument;
8 digits are enough for every 32-bit value, the only values rendered here. -/
def toHexCore : Nat → Nat → List Char → List Char
  | 0, _, acc => acc
  | fuel + 1, n, acc =>
    let acc2 := hexDigit (n % 16) :: acc
    if n < 16 then acc2 else toHexCore fuel (n / 16) acc2

/-- `(n >>> 0).toString(16)` for `n < 2^32`: lowercase hexadecimal, no
padding, `"0"` for zero. -/
def toHex (n : Nat) : String :=
  (toHexCore 8 n []).asString

/-- `simpleHash(value)` (src/index.ts:671). -/
def simpleHash (value : String) : String :=
  toHex (simpleHashNum value)

/-- The weak entity tag `` W/"..." `` built in `buildQrResponse`
(src/index.ts:608). -/
def etagOf (svg : String) : String :=
  "W/\"" ++ simpleHash svg ++ "\""

/-- Modelled from the spec: the standard 32-bit FNV-1a hash of a byte
sequence (offset basis 2166136261, prime 16777619, xor-then-multiply,
truncated to 32 bits). -/
def fnv1a32 (bytes : List Nat) : Nat :=
  bytes.foldl (fun h b => ((h ^^^ b) * 16777619) % 4294967296) 2166136261

/-- UTF-8 encoding of one Unicode scalar value. -/
def utf8EncodeChar (n : Nat) : List Nat :=
  if n < 128 then [n]
  else if n < 2048 then [192 + n / 64, 128 + n % 64]
  else if n < 65536 then [224 + n / 4096, 128 + (n / 64) % 64, 128 + n % 64]
  else [240 + n / 262144, 128 + (n / 4096) % 64, 128 + (n / 64) % 64, 128 + n % 64]

/-- The byte content `new TextEncoder().encode(svg)` of a response body. -/
def utf8Encode (s : String) : List Nat :=
  (s.toList.map (fun c => utf8EncodeChar c.toNat)).flatten

/-- The sixteen characters of lowercase hexadecimal. -/
def lowerHexChars : List Char :=
  "0123456789abcdef".toList

/-! ### QR pipeline (src/index.ts:512-619) -/

/-- The external `qrcode-generator` codec as seen from `buildQrResponse`:
`qrcode(0, ecc)` + `addData(data)` + `make()` + `createSvgTag(\x7bcellSize:
scale, margin: border, scalable: false, alt/title: "Icanhazqrcode"\x7d)`,
yielding an SVG string or (`none`) throwing. -/
def Codec := String → QrOptions → Option String

/-- `buildQrResponse(data, options)` (src/index.ts:583), parameterized by the
external codec.  `data.length` is the JS string length (for the ASCII data the
claims exercise, equal to Lean's `String.length`); the content-length header
is the UTF-8 byte count of the body. -/
def buildQrResponse (codec : Codec) (data : String) (options : QrOptions) : Resp :=
  if 2048 < data.length then
    badRequest "Data too long. Max length is 2048 characters."
  else
    match codec data options with
    | none => badRequest "Unable to encode QR for the provided input and options"
    | some svg =>
      { status := 200
        contentType := "image/svg+xml; charset=utf-8"
        cacheControl := "public, max-age=300"
        body := Body.textBody svg
        etag := some (etagOf svg)
        contentLength := some (utf8Encode svg).length
        xContentTypeOptions := some "nosniff" }

/-- The query parameters `qrFromQuery` reads (each `null` or a string, as
`url.searchParams.get` returns). -/
structure QueryParams where
  data : Option String
  scale : Option String
  border : Option String
  ecc : Option String

/-- `qrFromQuery(url)` (src/index.ts:512): `!data` is true exactly when the
parameter is absent (`null`) or the empty string. -/
def qrFromQuery (codec : Codec) (q : QueryParams) : Resp :=
  if q.data.getD "" = "" then
    badRequest "Missing required query parameter: data"
  else
    match parseOptions ⟨q.scale, q.border, q.ecc⟩ with
    | Except.error e => badRequest e
    | Except.ok opts => buildQrResponse codec (q.data.getD "") opts

/-- A JSON value found in a body field, as far as the `typeof` checks in
`qrFromBody` distinguish it: a string, a number, or anything else. -/
inductive JsonField where
  | str (s : String)
  | num (n : Int)
  | other
deriving DecidableEq

/-- The fields `qrFromBody` reads off a parsed JSON object body; `none` means
the field is absent (extra fields are ignored by the source). -/
structure JsonPayload where
  data : Option JsonField
  scale : Option JsonField
  border : Option JsonField
  ecc : Option JsonField
deriving DecidableEq

/-- The outcome of `await request.json()`: a thrown parse error, a non-object
value (including `null`), or an object. -/
inductive BodyJson where
  | parseError
  | notObject
  | objVal (payload : JsonPayload)

/-- The parts of a POST request `qrFromBody` consumes: the `content-type`
header (`null` when absent), the JSON parse outcome of the body, and the body
as text (`await request.text()`). -/
structure PostRequest where
  contentType : Option String
  jsonBody : BodyJson
  textBody : String

/-- `String(payload.scale)` for a field accepted when `typeof` is number or
string (src/index.ts:556-562). -/
def fieldNumOrStr : Option JsonField → Option String
  | some (JsonField.str s) => some s
  | some (JsonField.num n) => some (toString n)
  | _ => none

/-- A field accepted only when `typeof` is string (`data`, `ecc`). -/
def fieldStrOnly : Option JsonField → Option String
  | some (JsonField.str s) => some s
  | _ => none

/-- The common tail of `qrFromBody` (src/index.ts:571-580): the `!data` check
(absent or empty string), option validation, then `buildQrResponse`. -/
def qrBodyTail (codec : Codec) (data : Option String) (raw : RawOptions) : Resp :=
  if data.getD "" = "" then
    badRequest "Missing data in request body"
  else
    match parseOptions raw with
    | Except.error e => badRequest e
    | Except.ok opts => buildQrResponse codec (data.getD "") opts

/-- `qrFromBody(request, url)` (src/index.ts:531): option variables start from
the query string; a body with a JSON content type overwrites them with any
suitably-typed body fields; any other content type makes the whole body text
the payload. -/
def qrFromBody (codec : Codec) (query : RawOptions) (req : PostRequest) : Resp :=
  if strIncludes (req.contentType.getD "") "application/json" then
    match req.jsonBody with
    | BodyJson.parseError => badRequest "Invalid JSON body"
    | BodyJson.notObject => badRequest "JSON body must be an object"
    | BodyJson.objVal p =>
      let data := fieldStrOnly p.data
      let scale := match fieldNumOrStr p.scale with | some s => some s | none => query.scale
      let border := match fieldNumOrStr p.border with | some s => some s | none => query.border
      let ecc := match fieldStrOnly p.ecc with | some s => some s | none => query.ecc
      qrBodyTail codec data ⟨scale, border, ecc⟩
  else
    qrBodyTail codec (some req.textBody) query

/-! ### Specification-side definitions (for refinement statements) -/

/-- Modelled from the spec (§4.1, amended by the `parseInt` counterexample):
the scale field on its own — absent or blank gives 8, otherwise the value of
`parseInt(s, 10)` accepted exactly when it lies in `[1, 40]`. -/
def scaleSpec (raw : Option String) : Except String Int :=
  match raw with
  | none => Except.ok 8
  | some s =>
    if jsTrim s = "" then Except.ok 8
    else
      match jsParseInt10 s with
      | none => Except.error scaleErrorMsg
      | some v => if 1 ≤ v ∧ v ≤ 40 then Except.ok v else Except.error scaleErrorMsg

/-- Modelled from the spec (§4.1 / §8): the ecc field on its own — absent
gives "M"; a present value (empty included) is uppercased and must be one of
L, M, Q, H. -/
def eccSpec (raw : Option String) : Except String String :=
  match raw with
  | none => Except.ok "M"
  | some e =>
    let u := jsToUpper e
    if allowedEcc.contains u then Except.ok u else Except.error eccErrorMsg

/-- Whether the raw scale value passes validation, stated independently of
`parseOptions`'s control flow. -/
def scaleFieldOk (raw : Option String) : Bool :=
  match parseIntOrDefault raw 8 with
  | none => false
  | some v => decide (1 ≤ v) && decide (v ≤ 40)

/-- Whether the raw border value passes validation. -/
def borderFieldOk (raw : Option String) : Bool :=
  match parseIntOrDefault raw 4 with
  | none => false
  | some v => decide (0 ≤ v) && decide (v ≤ 20)

/-- Whether the raw ecc value passes validation. -/
def eccFieldOk (raw : Option String) : Bool :=
  allowedEcc.contains (jsToUpper (raw.getD "M"))

/-- Modelled from the spec (§4.1): the message of the first failing field in
the order scale, border, errorCorrection; `none` when all three pass. -/
def firstFailureMsg (i : RawOptions) : Option String :=
  if !scaleFieldOk i.scale then some scaleErrorMsg
  else if !borderFieldOk i.border then some borderErrorMsg
  else if !eccFieldOk i.ecc then some eccErrorMsg
  else none

/-- Modelled from the spec (§4.2): the precedence merge — a body-supplied
value wins, the query value is the fallback. -/
def bodyOverQuery (bodyVal queryVal : Option String) : Option String :=
  match bodyVal with
  | some s => some s
  | none => queryVal

/-! ### Helper lemmas -/

theorem hexDigit_mem_lowerHex (m : Nat) (h : m < 16) : hexDigit m ∈ lowerHexChars := by
  interval_cases m
  all_goals decide

theorem toHexCore_mem_lowerHex :
    ∀ (fuel n : Nat) (acc : List Char), (∀ c ∈ acc, c ∈ lowerHexChars) →
      ∀ c ∈ toHexCore fuel n acc, c ∈ lowerHexChars := by
  intro fuel
  induction fuel with
  | zero => intro n acc hacc c hc; exact hacc c hc
  | succ fuel ih =>
    intro n acc hacc c hc
    have hacc2 : ∀ c ∈ hexDigit (n % 16) :: acc, c ∈ lowerHexChars := by
      intro c hc
      rcases List.mem_cons.mp hc with h | h
      · exact h ▸ hexDigit_mem_lowerHex (n % 16) (Nat.mod_lt _ (by norm_num))
      · exact hacc c h
    simp only [toHexCore] at hc
    split at hc
    · exact hacc2 c hc
    · exact ih (n / 16) (hexDigit (n % 16) :: acc) hacc2 c hc

theorem toHex_mem_lowerHex (n : Nat) : ∀ c ∈ (toHex n).toList, c ∈ lowerHexChars := by
  intro c hc
  have : (toHex n).toList = toHexCore 8 n [] := by
    simp [toHex, List.asString]
  rw [this] at hc
  exact toHexCore_mem_lowerHex 8 n [] (by intro c hc; cases hc) c hc

theorem utf8_flatten_ascii :
    ∀ l : List Char, (∀ c ∈ l, c.toNat < 128) →
      (l.map (fun c => utf8EncodeChar c.toNat)).flatten = l.map Char.toNat := by
  intro l hl
  induction l with
  | nil => rfl
  | cons c cs ih =>
    have hc : c.toNat < 128 := hl c (by simp)
    have ih2 := ih (fun x hx => hl x (by simp [hx]))
    simp only [List.map_cons, List.flatten_cons, ih2]
    simp [utf8EncodeChar, hc]

theorem utf8Encode_ascii (s : String) (h : ∀ c ∈ s.toList, c.toNat < 128) :
    utf8Encode s = s.toList.map Char.toNat :=
  utf8_flatten_ascii s.toList h

theorem simpleHashNum_eq_fnv1a32 (s : String) (h : ∀ c ∈ s.toList, c.toNat < 128) :
    simpleHashNum s = fnv1a32 (utf8Encode s) := by
  rw [utf8Encode_ascii s h]
  unfold simpleHashNum fnv1a32 fnvStep
  rw [List.foldl_map]

theorem scale_range_bridge (v : Int) :
    (decide (v ≤ 0) || decide (40 < v)) = !(decide (1 ≤ v) && decide (v ≤ 40)) := by
  by_cases h1 : v ≤ 0 <;> by_cases h2 : 40 < v <;> simp [h1, h2] <;> omega

theorem border_range_bridge (v : Int) :
    (decide (v < 0) || decide (20 < v)) = !(decide (0 ≤ v) && decide (v ≤ 20)) := by
  by_cases h1 : v < 0 <;> by_cases h2 : 20 < v <;> simp [h1, h2]
  omega

/-! ### Claim theorems -/

/-- C2 (amended): an absent or blank scale defaults to 8; otherwise the input
is parsed by `parseInt(s, 10)` — taking the longest leading base-10 integer
(after optional whitespace and sign) and ignoring any trailing text — and is
rejected with the message naming "scale" and the range [1, 40] exactly when no
leading integer exists or the parsed value falls outside [1, 40]; every
in-range integer string is accepted unchanged.  (Unlike the original claim,
floats such as "3.5" or digits with trailing garbage are *not* rejected: their
integer prefix is used.) -/
theorem scale_parseInt_semantics :
    (∀ raw, parseOptions ⟨raw, none, none⟩ =
      Except.map (fun v => (⟨v, 4, "M"⟩ : QrOptions)) (scaleSpec raw)) ∧
    scaleErrorMsg = "scale must be an integer between 1 and 40" := by
  refine ⟨?_, rfl⟩
  intro raw
  cases raw with
  | none => rfl
  | some s =>
    have hM : jsToUpper ((none : Option String).getD "M") = "M" := by decide
    have hC : allowedEcc.contains "M" = true := by decide
    have hC2 : "M" ∈ allowedEcc := by decide
    simp only [parseOptions, parseIntOrDefault, scaleSpec, hM]
    by_cases ht : jsTrim s = ""
    · simp [ht, Except.map, hC, hC2]
    · simp only [if_neg ht]
      cases hp : jsParseInt10 s with
      | none => rfl
      | some v =>
        simp only [Except.map, scale_range_bridge v]
        by_cases h : 1 ≤ v ∧ v ≤ 40
        · have hb : (decide (1 ≤ v) && decide (v ≤ 40)) = true := by
            simp [h.1, h.2]
          simp only [hb, Bool.not_true, if_pos h]
          simp [hC, hC2]
        · have hb : (decide (1 ≤ v) && decide (v ≤ 40)) = false := by
            rcases Decidable.not_and_iff_or_not.mp h with h1 | h2
            · simp [h1]
            · simp [h2]
          simp [hb, if_neg h]

/-- C2 counterexample: the non-integer string "3.5" is accepted (as scale 3)
by the Option Normalizer, not rejected with a validation failure. -/
theorem scale_float_accepted :
    parseOptions ⟨some "3.5", none, none⟩ = Except.ok ⟨3, 4, "M"⟩ := by decide

/-- C4: `ecc` is case-insensitively uppercased; an entirely absent parameter
defaults to "M"; a present-but-empty value is uppercased to "" and rejected
with the ecc validation failure (not defaulted); any value outside
\x7bL, M, Q, H\x7d, such as "X", is likewise rejected. -/
theorem ecc_normalization :
    (∀ raw, parseOptions ⟨none, none, raw⟩ =
      Except.map (fun e => (⟨8, 4, e⟩ : QrOptions)) (eccSpec raw)) ∧
    parseOptions ⟨none, none, none⟩ = Except.ok ⟨8, 4, "M"⟩ ∧
    parseOptions ⟨none, none, some ""⟩ = Except.error eccErrorMsg ∧
    jsToUpper "" = "" ∧
    parseOptions ⟨none, none, some "l"⟩ = Except.ok ⟨8, 4, "L"⟩ ∧
    parseOptions ⟨none, none, some "L"⟩ = Except.ok ⟨8, 4, "L"⟩ ∧
    parseOptions ⟨none, none, some "q"⟩ = Except.ok ⟨8, 4, "Q"⟩ ∧
    parseOptions ⟨none, none, some "Q"⟩ = Except.ok ⟨8, 4, "Q"⟩ ∧
    parseOptions ⟨none, none, some "X"⟩ = Except.error eccErrorMsg := by
  refine ⟨?_, by decide, by decide, by decide, by decide, by decide, by decide, by decide,
    by decide⟩
  intro raw
  cases raw with
  | none => rfl
  | some e =>
    simp only [parseOptions, eccSpec, parseIntOrDefault, Option.getD]
    by_cases h : jsToUpper e ∈ allowedEcc
    · simp [h, Except.map]
    · simp [h, Except.map]

/-- C9: when several raw option fields are invalid, `parseOptions` surfaces
exactly one validation failure — the message of the first failing field in
the order scale, border, errorCorrection — and succeeds exactly when all
three fields pass. -/
theorem first_failing_field (i : RawOptions) (m : String) :
    (parseOptions i = Except.error m ↔ firstFailureMsg i = some m) ∧
    ((∃ o, parseOptions i = Except.ok o) ↔ firstFailureMsg i = none) := by
  obtain ⟨sc, bo, ec⟩ := i
  simp only [parseOptions, firstFailureMsg, scaleFieldOk, borderFieldOk, eccFieldOk]
  cases hs : parseIntOrDefault sc 8 with
  | none => simp [scaleErrorMsg, borderErrorMsg, eccErrorMsg]
  | some v =>
    simp only [scale_range_bridge v]
    by_cases hv : (decide (1 ≤ v) && decide (v ≤ 40)) = true
    · simp only [hv, Bool.not_true, Bool.false_eq_true, if_false, if_neg]
      cases hb : parseIntOrDefault bo 4 with
      | none => simp
      | some w =>
        simp only [border_range_bridge w]
        by_cases hw : (decide (0 ≤ w) && decide (w ≤ 20)) = true
        · by_cases he : jsToUpper (ec.getD "M") ∈ allowedEcc
          · simp [hv, hw, he]
          · simp [hv, hw, he]
        · simp only [Bool.not_eq_true] at hw
          simp [hv, hw]
    · simp only [Bool.not_eq_true] at hv
      simp [hv]

/-- C3: GET /health answers 200 with a JSON object naming the service
("icanhazqrcode") and enumerating its six endpoints; its cache-control is
exactly the default `no-store` that the `json` helper stamps on every JSON
response — nothing special beyond it. -/
theorem health_endpoint_metadata :
    healthResponse.status = 200 ∧
    healthResponse.contentType = "application/json; charset=utf-8" ∧
    healthResponse.body = Body.jsonBody (Json.obj
      [ ("service", Json.str "icanhazqrcode")
      , ("endpoints", Json.arr
          [ Json.str "GET / (landing page with QR form + optional ad slot)"
          , Json.str "GET /robots.txt"
          , Json.str "GET /sitemap.xml"
          , Json.str "GET /llms.txt"
          , Json.str "GET /qr?data=<text>&scale=8&border=4&ecc=M"
          , Json.str "POST /qr (text/plain or application/json \x7bdata, scale, border, ecc\x7d)"
          ]) ]) ∧
    (∀ (v : Json) (st : Nat), (json v st).cacheControl = healthResponse.cacheControl) ∧
    healthResponse.etag = none :=
  ⟨rfl, rfl, rfl, fun _ _ => rfl, rfl⟩

/-- C6: a payload of exactly 2048 characters passes the length check and
reaches the codec (the outcome is whatever the codec returns), while a
payload of 2049 or more characters is rejected — for every codec, so the
codec is never consulted — with the 400 length-specific message. -/
theorem data_length_boundary (codec : Codec) (data : String) (opts : QrOptions) :
    (data.length = 2048 →
      (codec data opts = none →
        buildQrResponse codec data opts =
          badRequest "Unable to encode QR for the provided input and options") ∧
      (∀ svg, codec data opts = some svg →
        (buildQrResponse codec data opts).status = 200 ∧
        (buildQrResponse codec data opts).body = Body.textBody svg)) ∧
    (2049 ≤ data.length →
      buildQrResponse codec data opts =
        badRequest "Data too long. Max length is 2048 characters." ∧
      (badRequest "Data too long. Max length is 2048 characters.").status = 400) := by
  constructor
  · intro hlen
    have hnot : ¬ (2048 < data.length) := by omega
    constructor
    · intro hc
      simp [buildQrResponse, hnot, hc]
    · intro svg hc
      simp [buildQrResponse, hnot, hc]
  · intro hlen
    have hgt : 2048 < data.length := by omega
    exact ⟨by simp [buildQrResponse, hgt], rfl⟩

/-- C6 at the boundary: a concrete 2048-character payload yields a 200
response when the codec succeeds, and the concrete 2049-character payload is
rejected with the length message. -/
theorem data_length_boundary_check :
    (buildQrResponse (fun _ _ => some "<svg/>")
        ((List.replicate 2048 'a').asString) ⟨8, 4, "M"⟩).status = 200 ∧
    buildQrResponse (fun _ _ => some "<svg/>")
        ((List.replicate 2049 'a').asString) ⟨8, 4, "M"⟩ =
      badRequest "Data too long. Max length is 2048 characters." := by
  constructor
  · exact (((data_length_boundary (fun _ _ => some "<svg/>")
      ((List.replicate 2048 'a').asString) ⟨8, 4, "M"⟩).1
      (by rw [List.length_asString, List.length_replicate])).2 "<svg/>" rfl).1
  · exact ((data_length_boundary (fun _ _ => some "<svg/>")
      ((List.replicate 2049 'a').asString) ⟨8, 4, "M"⟩).2
      (by rw [List.length_asString, List.length_replicate])).1

/-- C7: whenever the codec fails (for any internal reason), the endpoint
answers with the single generic 400 "unable to encode" JSON error, and the
outcome depends only on the one value returned by the single codec
invocation — two codecs that agree on this request produce the same
response, so the codec is never retried or its failure inspected. -/
theorem codec_failure_generic (codec : Codec) (data : String) (opts : QrOptions) :
    (data.length ≤ 2048 → codec data opts = none →
      buildQrResponse codec data opts =
        badRequest "Unable to encode QR for the provided input and options" ∧
      (buildQrResponse codec data opts).status = 400) ∧
    (∀ codec2 : Codec, codec data opts = codec2 data opts →
      buildQrResponse codec data opts = buildQrResponse codec2 data opts) := by
  constructor
  · intro hlen hc
    have hnot : ¬ (2048 < data.length) := by omega
    refine ⟨by simp [buildQrResponse, hnot, hc], ?_⟩
    simp [buildQrResponse, hnot, hc, badRequest, json]
  · intro codec2 heq
    unfold buildQrResponse
    rw [heq]

/-- C7 at a concrete input: a codec that always fails yields the generic 400
error for payload "hello" with default options. -/
theorem codec_failure_generic_check :
    buildQrResponse (fun _ _ => none) "hello" ⟨8, 4, "M"⟩ =
      badRequest "Unable to encode QR for the provided input and options" ∧
    (buildQrResponse (fun _ _ => none) "hello" ⟨8, 4, "M"⟩).status = 400 ∧
    buildQrResponse (fun _ _ => none) "hello" ⟨8, 4, "M"⟩ =
      buildQrResponse (fun _ s => if s.ecc = "Z" then some "x" else none) "hello" ⟨8, 4, "M"⟩ := by
  refine ⟨?_, ?_, ?_⟩
  · exact ((codec_failure_generic (fun _ _ => none) "hello" ⟨8, 4, "M"⟩).1
      (by decide) rfl).1
  · exact ((codec_failure_generic (fun _ _ => none) "hello" ⟨8, 4, "M"⟩).1
      (by decide) rfl).2
  · exact (codec_failure_generic (fun _ _ => none) "hello" ⟨8, 4, "M"⟩).2
      (fun _ s => if s.ecc = "Z" then some "x" else none) (by decide)

/-- C10: an extracted payload that is the empty string — GET /qr with `data`
present but empty (or absent), a JSON POST whose `data` field is "", or a
POST with an empty raw body — yields the 400 missing-data validation error
for every codec, so the codec is never invoked. -/
theorem empty_payload_rejected (codec : Codec) (q : QueryParams) (query : RawOptions)
    (p : JsonPayload) (ct txt : String) (jb jb2 : BodyJson) :
    (q.data = some "" ∨ q.data = none →
      qrFromQuery codec q = badRequest "Missing required query parameter: data") ∧
    (strIncludes ct "application/json" = true → p.data = some (JsonField.str "") →
      qrFromBody codec query ⟨some ct, BodyJson.objVal p, txt⟩ =
        badRequest "Missing data in request body") ∧
    (strIncludes ct "application/json" = false →
      qrFromBody codec query ⟨some ct, jb, ""⟩ = badRequest "Missing data in request body") ∧
    (qrFromBody codec query ⟨none, jb2, ""⟩ = badRequest "Missing data in request body") ∧
    (badRequest "Missing required query parameter: data").status = 400 ∧
    (badRequest "Missing data in request body").status = 400 := by
  refine ⟨?_, ?_, ?_, ?_, rfl, rfl⟩
  · intro h
    rcases h with h | h <;> simp [qrFromQuery, h]
  · intro hct hdata
    simp [qrFromBody, hct, hdata, fieldStrOnly, qrBodyTail]
  · intro hct
    simp [qrFromBody, hct, qrBodyTail]
  · have hct : strIncludes "" "application/json" = false := by decide
    simp [qrFromBody, hct, qrBodyTail]

/-- C10 at concrete inputs: the three empty-payload shapes each produce the
missing-data 400 response. -/
theorem empty_payload_rejected_check :
    qrFromQuery (fun _ _ => some "x") ⟨some "", none, none, none⟩ =
      badRequest "Missing required query parameter: data" ∧
    qrFromBody (fun _ _ => some "x") ⟨none, none, none⟩
        ⟨some "application/json",
         BodyJson.objVal ⟨some (JsonField.str ""), none, none, none⟩, "t"⟩ =
      badRequest "Missing data in request body" ∧
    qrFromBody (fun _ _ => some "x") ⟨none, none, none⟩
        ⟨some "text/plain", BodyJson.parseError, ""⟩ =
      badRequest "Missing data in request body" := by
  refine ⟨?_, ?_, ?_⟩
  · exact (empty_payload_rejected (fun _ _ => some "x") ⟨some "", none, none, none⟩
      ⟨none, none, none⟩ ⟨none, none, none, none⟩ "" ""
      BodyJson.parseError BodyJson.parseError).1 (Or.inl rfl)
  · exact (empty_payload_rejected (fun _ _ => some "x") ⟨some "", none, none, none⟩
      ⟨none, none, none⟩ ⟨some (JsonField.str ""), none, none, none⟩ "application/json" "t"
      BodyJson.parseError BodyJson.parseError).2.1 (by decide) rfl
  · exact (empty_payload_rejected (fun _ _ => some "x") ⟨some "", none, none, none⟩
      ⟨none, none, none⟩ ⟨none, none, none, none⟩ "text/plain" ""
      BodyJson.parseError BodyJson.parseError).2.2.1 (by decide)

/-- C5: for a JSON POST, each option value supplied in the body (number- or
string-typed scale/border, string-typed ecc) takes priority over the
same-named query parameter, and the query value remains the fallback when
the body omits the field; in particular query `scale=4` with body
`"scale": 10` gives effective scale 10. -/
theorem body_overrides_query (codec : Codec) (query : RawOptions)
    (p : JsonPayload) (ct txt : String) :
    (strIncludes ct "application/json" = true →
      qrFromBody codec query ⟨some ct, BodyJson.objVal p, txt⟩ =
        qrBodyTail codec (fieldStrOnly p.data)
          ⟨bodyOverQuery (fieldNumOrStr p.scale) query.scale,
           bodyOverQuery (fieldNumOrStr p.border) query.border,
           bodyOverQuery (fieldStrOnly p.ecc) query.ecc⟩) ∧
    (∀ qv : Option String, bodyOverQuery none qv = qv) ∧
    qrFromBody codec ⟨some "4", none, none⟩
        ⟨some "application/json",
         BodyJson.objVal ⟨some (JsonField.str "hello"), some (JsonField.num 10), none, none⟩,
         txt⟩ =
      buildQrResponse codec "hello" ⟨10, 4, "M"⟩ := by
  refine ⟨?_, fun _ => rfl, ?_⟩
  · intro hct
    simp only [qrFromBody, Option.getD, hct, if_pos]
    rfl
  · have hp : parseOptions ⟨some "10", none, none⟩ = Except.ok ⟨10, 4, "M"⟩ := by decide
    have hs : (toString (10 : Int)) = "10" := by decide
    have hct : strIncludes "application/json" "application/json" = true := by decide
    simp [qrFromBody, hct, qrBodyTail, fieldStrOnly, fieldNumOrStr, hs, hp]

/-- C5 at a concrete input: with query options (scale 4, border 7, ecc l) and
a JSON body supplying data "hi", scale 10 and ecc "h", the effective raw
options are scale "10" and ecc "h" from the body with border "7" from the
query. -/
theorem body_overrides_query_check :
    qrFromBody (fun _ _ => some "x") ⟨some "4", some "7", some "l"⟩
        ⟨some "application/json",
         BodyJson.objVal
           ⟨some (JsonField.str "hi"), some (JsonField.num 10), none,
            some (JsonField.str "h")⟩, ""⟩ =
      qrBodyTail (fun _ _ => some "x") (some "hi") ⟨some "10", some "7", some "h"⟩ := by
  have h := (body_overrides_query (fun _ _ => some "x") ⟨some "4", some "7", some "l"⟩
    ⟨some (JsonField.str "hi"), some (JsonField.num 10), none, some (JsonField.str "h")⟩
    "application/json" "").1 (by decide)
  have hs : (toString (10 : Int)) = "10" := by decide
  simpa [bodyOverQuery, fieldNumOrStr, fieldStrOnly, hs] using h

/-- C1 (amended): an invalid or partial ad configuration always makes the ad
*unit* markup fall back to the neutral placeholder, identical to a fully
absent configuration, and when the client identifier is invalid or absent no
AdSense script or meta tag is emitted at all; but when the client identifier
alone is valid, the page still carries the AdSense loader script tag and
meta tag even though the slot is missing or invalid. -/
theorem ad_fallback_partial_config (c s : Option String) :
    (safeAdClient c = none ∨ safeAdSlot s = none →
      (landingPage c s).adMarkup = fallbackAdMarkup ∧
      (landingPage c s).adMarkup = (landingPage none none).adMarkup) ∧
    (safeAdClient c = none →
      (landingPage c s).adScript = "" ∧ (landingPage c s).adMeta = "" ∧
      landingPage c s = landingPage none none) ∧
    (∀ cv, safeAdClient c = some cv →
      (landingPage c s).adScript = adsenseScriptMarkup cv ∧
      (landingPage c s).adMeta = adsenseMetaMarkup cv) := by
  cases hc : safeAdClient c <;> cases hs : safeAdSlot s <;>
    (simp only [landingPage, hc, hs]; simp [safeAdClient, safeAdSlot])

/-- C1 counterexample: with a valid client identifier (`ca-pub-` + 10
digits) and an absent slot identifier — a partially valid configuration —
the landing page still emits the third-party AdSense loader script tag, and
its head differs from the fully-absent configuration, contradicting "never
emits third-party ad script tags" and "treated identically to fully
absent". -/
theorem ad_script_partial_config_counterexample :
    safeAdClient (some "ca-pub-1234567890") = some "ca-pub-1234567890" ∧
    safeAdSlot (none : Option String) = none ∧
    (landingPage (some "ca-pub-1234567890") none).adMarkup = fallbackAdMarkup ∧
    (landingPage (some "ca-pub-1234567890") none).adScript =
      adsenseScriptMarkup "ca-pub-1234567890" ∧
    strIncludes (landingPage (some "ca-pub-1234567890") none).adScript "<script" = true ∧
    (landingPage none none).adScript = "" ∧
    landingPage (some "ca-pub-1234567890") none ≠ landingPage none none := by
  refine ⟨by decide, rfl, by decide, rfl, by decide, rfl, by decide⟩

/-- C1 at a concrete input: an invalid client identifier with a valid slot
identifier produces the fallback placeholder and no script tag. -/
theorem ad_fallback_partial_config_check :
    (landingPage (some "not-a-client") (some "12345")).adMarkup = fallbackAdMarkup ∧
    (landingPage (some "not-a-client") (some "12345")).adScript = "" := by
  have h := ad_fallback_partial_config (some "not-a-client") (some "12345")
  exact ⟨(h.1 (Or.inl (by decide))).1, (h.2.1 (by decide)).1⟩

/-- C8: every successful image response carries the weak entity tag
`` W/"h" `` where `h` is the hash of the body rendered by `toString(16)` —
lowercase hexadecimal — and the hash agrees with the standard 32-bit FNV-1a
hash of the response's UTF-8 byte content (the codec's SVG output is ASCII,
hypothesis included); the tag is a function of the byte content alone, so
identical content from two unrelated requests yields identical tags with no
request-specific salt. -/
theorem weak_etag_fnv1a (codec : Codec) (data : String) (opts : QrOptions) (svg : String) :
    (codec data opts = some svg → data.length ≤ 2048 →
      (buildQrResponse codec data opts).etag =
        some ("W/\"" ++ toHex (simpleHashNum svg) ++ "\"") ∧
      (buildQrResponse codec data opts).body = Body.textBody svg ∧
      ((∀ c ∈ svg.toList, c.toNat < 128) →
        simpleHashNum svg = fnv1a32 (utf8Encode svg)) ∧
      (∀ c ∈ (toHex (simpleHashNum svg)).toList, c ∈ lowerHexChars)) ∧
    (∀ (codec2 : Codec) (data2 : String) (opts2 : QrOptions),
      codec data opts = some svg → data.length ≤ 2048 →
      codec2 data2 opts2 = some svg → data2.length ≤ 2048 →
      (buildQrResponse codec2 data2 opts2).etag = (buildQrResponse codec data opts).etag) := by
  constructor
  · intro hc hlen
    have hnot : ¬ (2048 < data.length) := by omega
    refine ⟨?_, ?_, fun h => simpleHashNum_eq_fnv1a32 svg h,
      fun c hmem => toHex_mem_lowerHex _ c hmem⟩
    · simp [buildQrResponse, hnot, hc, etagOf, simpleHash]
    · simp [buildQrResponse, hnot, hc]
  · intro codec2 data2 opts2 hc hlen hc2 hlen2
    have hnot : ¬ (2048 < data.length) := by omega
    have hnot2 : ¬ (2048 < data2.length) := by omega
    simp [buildQrResponse, hnot, hnot2, hc, hc2]

/-- C8 at a concrete input: the etag of a successful response for the ASCII
body "<svg/>" is the weak-marked lowercase hex FNV-1a fingerprint, and two
different requests producing the same bytes carry the same etag. -/
theorem weak_etag_fnv1a_check :
    (buildQrResponse (fun _ _ => some "<svg/>") "hi" ⟨8, 4, "M"⟩).etag =
      some ("W/\"" ++ toHex (simpleHashNum "<svg/>") ++ "\"") ∧
    simpleHashNum "<svg/>" = fnv1a32 (utf8Encode "<svg/>") ∧
    (buildQrResponse (fun _ _ => some "<svg/>") "other data" ⟨3, 0, "L"⟩).etag =
      (buildQrResponse (fun _ _ => some "<svg/>") "hi" ⟨8, 4, "M"⟩).etag := by
  have h := (weak_etag_fnv1a (fun _ _ => some "<svg/>") "hi" ⟨8, 4, "M"⟩ "<svg/>").1
    rfl (by decide)
  have h2 := (weak_etag_fnv1a (fun _ _ => some "<svg/>") "hi" ⟨8, 4, "M"⟩ "<svg/>").2
    (fun _ _ => some "<svg/>") "other data" ⟨3, 0, "L"⟩ rfl (by decide) rfl (by decide)
  exact ⟨h.1, h.2.2.1 (by decide), h2⟩

/-- C9 at a concrete input: with all three fields invalid (scale "0", border
"abc", ecc "Z"), the single surfaced failure is the scale message. -/
theorem first_failing_field_check :
    parseOptions ⟨some "0", some "abc", some "Z"⟩ = Except.error scaleErrorMsg :=
  (first_failing_field ⟨some "0", some "abc", some "Z"⟩ scaleErrorMsg).1.mpr (by decide)
